import Mathlib

/-!
Shallow embedding of the SPECT collimator Monte Carlo simulator
(`spect-simulation.py`) and proofs about its photon-transport kernel and
metrics engine.

Conventions of the embedding:
* Python floats are modelled by real numbers `ℝ`.
* The global numpy random stream is modelled by passing each trial an
  explicit tuple of draws (`PhotonRand`): the sampled angles, entry
  position, the uniform attenuation draw, and a standard-normal draw used
  for the detected energy (`np.random.normal(140, s)` is `140 + s * eps`).
* A trial's outcome is one of the three branches of the loop body of
  `simulate_photon_transport`: geometric rejection, septal absorption, or
  detection with a final position and energy.
* Python dicts returned by `calculate_metrics` are modelled by a structure;
  the two keys that the zero-detection branch of the source omits are
  modelled as `Option ℝ` fields (`none` = key absent).
-/

namespace Spect

/-- `CollimatorParams` dataclass: plain record, no constructor validation. -/
structure CollimatorParams where
  hole_diameter : ℝ
  hole_length : ℝ
  septal_thickness : ℝ
  material : String
  num_holes_x : ℕ := 100
  num_holes_y : ℕ := 100

/-- `MaterialProperties` dataclass. -/
structure MaterialProperties where
  density : ℝ
  attenuation_coefficient : ℝ
  name : String

/-- The `MATERIALS` dict; Python dict lookup by key is modelled as an
`Option`-valued function (`none` = `KeyError`). -/
noncomputable def MATERIALS (key : String) : Option MaterialProperties :=
  if key = "lead" then some ⟨11.34, 23.0, "Lead"⟩
  else if key = "tungsten" then some ⟨19.25, 18.0, "Tungsten"⟩
  else if key = "brass" then some ⟨8.5, 8.0, "Brass"⟩
  else none

/-- A constructed simulator: the params plus the material looked up in
`__init__`. -/
structure SPECTSimulator where
  params : CollimatorParams
  material : MaterialProperties

/-- `SPECTSimulator.__init__`: stores the params and performs
`MATERIALS[params.material]`; an unknown material name makes the dict
lookup fail (`KeyError`, modelled as `none`).  No dimension check occurs. -/
noncomputable def mkSPECTSimulator (p : CollimatorParams) : Option SPECTSimulator :=
  (MATERIALS p.material).map (fun m => ⟨p, m⟩)

/-- The random draws consumed by one trial of the transport loop:
polar angle, azimuthal angle, entry position, uniform attenuation draw,
and the standard-normal draw behind the sampled energy. -/
structure PhotonRand where
  theta : ℝ
  phi : ℝ
  x0 : ℝ
  y0 : ℝ
  u : ℝ
  eps : ℝ

/-- The three ways a trial of the loop body can end. -/
inductive Outcome where
  | rejected
  | absorbed
  | detected (x y energy : ℝ)

/-- `_calculate_septal_path(theta, phi)`: returns `0.0` for
`abs(theta) < 1e-6`, else `septal_thickness * abs(tan(theta))`.
(`phi` is accepted and unused, as in the source.) -/
noncomputable def calculate_septal_path (p : CollimatorParams) (theta phi : ℝ) : ℝ :=
  if |theta| < 1e-6 then 0
  else p.septal_thickness * |Real.tan theta|

/-- The local `acceptance_angle` of the loop body:
`arctan(hole_diameter / (2 * hole_length))`. -/
noncomputable def acceptance_angle (p : CollimatorParams) : ℝ :=
  Real.arctan (p.hole_diameter / (2 * p.hole_length))

/-- One iteration of the loop body of `simulate_photon_transport`:
reject if `abs(theta) > acceptance_angle`; otherwise absorb if the uniform
draw exceeds `exp(-attenuation_coefficient * septal_path_length / 10)`;
otherwise detect at `(x0 + dx*L/dz, y0 + dy*L/dz)` with
`dx = sin(theta)*cos(phi)`, `dy = sin(theta)*sin(phi)`, `dz = cos(theta)`,
and energy `140 + (140*0.1/2.355) * eps`. -/
noncomputable def step (p : CollimatorParams) (m : MaterialProperties) (r : PhotonRand) : Outcome :=
  if acceptance_angle p < |r.theta| then Outcome.rejected
  else if Real.exp (-(m.attenuation_coefficient * calculate_septal_path p r.theta r.phi) / 10) < r.u then
    Outcome.absorbed
  else
    Outcome.detected
      (r.x0 + Real.sin r.theta * Real.cos r.phi * p.hole_length / Real.cos r.theta)
      (r.y0 + Real.sin r.theta * Real.sin r.phi * p.hole_length / Real.cos r.theta)
      (140 + 140 * 0.1 / 2.355 * r.eps)

/-- Folding one trial's outcome into the accumulated
(detected list, septal counter, geometric counter). -/
noncomputable def trialFold (p : CollimatorParams) (m : MaterialProperties) (r : PhotonRand)
    (acc : List (ℝ × ℝ × ℝ) × ℕ × ℕ) : List (ℝ × ℝ × ℝ) × ℕ × ℕ :=
  match step p m r with
  | Outcome.rejected => (acc.1, acc.2.1, acc.2.2 + 1)
  | Outcome.absorbed => (acc.1, acc.2.1 + 1, acc.2.2)
  | Outcome.detected x y e => ((x, y, e) :: acc.1, acc.2.1, acc.2.2)

/-- The whole trial loop over a list of per-trial random tuples. -/
noncomputable def runTrials (p : CollimatorParams) (m : MaterialProperties)
    (rs : List PhotonRand) : List (ℝ × ℝ × ℝ) × ℕ × ℕ :=
  rs.foldr (trialFold p m) ([], 0, 0)

/-- The dict returned by `simulate_photon_transport`. -/
structure SimResult where
  detected_photons : List (ℝ × ℝ × ℝ)
  total_photons : ℕ
  detected_count : ℕ
  septal_penetration : ℕ
  geometric_rejection : ℕ

/-- `simulate_photon_transport(num_photons, source_distance)`: runs
`num_photons` independent trials and packages the counters.
`source_distance` is accepted but never read, as in the source. -/
noncomputable def simulate_photon_transport (p : CollimatorParams) (m : MaterialProperties)
    (num_photons : ℕ) (source_distance : ℝ) (rand : ℕ → PhotonRand) : SimResult :=
  let t := runTrials p m ((List.range num_photons).map rand)
  { detected_photons := t.1
    total_photons := num_photons
    detected_count := t.1.length
    septal_penetration := t.2.1
    geometric_rejection := t.2.2 }

/-- Folding one trial grows the outcome tallies by exactly one. -/
theorem trialFold_conservation (p : CollimatorParams) (m : MaterialProperties) (r : PhotonRand)
    (acc : List (ℝ × ℝ × ℝ) × ℕ × ℕ) :
    (trialFold p m r acc).1.length + (trialFold p m r acc).2.1 + (trialFold p m r acc).2.2 =
      acc.1.length + acc.2.1 + acc.2.2 + 1 := by
  unfold trialFold
  split <;> simp <;> omega

/-- `np.mean` of a list (population mean; `x.sum / len(x)`). -/
noncomputable def npMean (l : List ℝ) : ℝ := l.sum / l.length

/-- `np.var`-style population variance used by `np.std` (`ddof = 0`). -/
noncomputable def npVar (l : List ℝ) : ℝ :=
  ((l.map (fun x => (x - npMean l) ^ 2)).sum) / l.length

/-- `np.std` of a list: square root of the population variance. -/
noncomputable def npStd (l : List ℝ) : ℝ := Real.sqrt (npVar l)

/-- `_calculate_fwhm(positions)`: `0.0` under 10 samples, else
`2.355 * np.std(positions)`. -/
noncomputable def calculate_fwhm (positions : List ℝ) : ℝ :=
  if positions.length < 10 then 0
  else 2.355 * npStd positions

/-- Minimum of a data list (as used by numpy to fix histogram edges). -/
noncomputable def listMin : List ℝ → ℝ
  | [] => 0
  | x :: xs => xs.foldl min x

/-- Maximum of a data list (as used by numpy to fix histogram edges). -/
noncomputable def listMax : List ℝ → ℝ
  | [] => 0
  | x :: xs => xs.foldl max x

/-- The bin index `np.histogram` assigns to `v` for `n` equal-width bins
over `[lo, hi]`: `floor((v - lo) * n / (hi - lo))` clamped so the right
edge lands in the last bin; a degenerate zero-width range puts every
(necessarily equal) value in the middle bin, as numpy does by padding the
range by 0.5 on each side. -/
noncomputable def binIndex (lo hi : ℝ) (n : ℕ) (v : ℝ) : ℕ :=
  if hi ≤ lo then n / 2
  else min (n - 1) (⌊(v - lo) * n / (hi - lo)⌋).toNat

/-- `np.histogram2d(x, y, bins=n)`: the flattened `n × n` grid of counts,
with each axis binned over that axis's own data range. -/
noncomputable def histogram2d (xs ys : List ℝ) (n : ℕ) : List ℝ :=
  ((List.range n).map (fun i => (List.range n).map (fun j =>
    (((xs.zip ys).filter (fun q =>
      binIndex (listMin xs) (listMax xs) n q.1 = i ∧
      binIndex (listMin ys) (listMax ys) n q.2 = j)).length : ℝ)))).flatten

/-- `_calculate_uniformity(photons, grid_size=10)`: `0.0` under 10
photons; else `max(0, (1 - std/mean) * 100)` over the per-bin counts of a
`grid_size × grid_size` histogram of the detected positions, with a guard
returning `0.0` when the per-bin mean is not positive. -/
noncomputable def calculate_uniformity (photons : List (ℝ × ℝ × ℝ)) (grid_size : ℕ := 10) : ℝ :=
  if photons.length < 10 then 0
  else
    let x := photons.map (fun ph => ph.1)
    let y := photons.map (fun ph => ph.2.1)
    let hist := histogram2d x y grid_size
    let mean_counts := npMean hist
    let std_counts := npStd hist
    if 0 < mean_counts then max 0 ((1 - std_counts / mean_counts) * 100)
    else 0

/-- The dict returned by `calculate_metrics`.  The zero-detection branch of
the source returns a dict with only the first four keys, so the last two
are `Option`-valued (`none` = key absent from the returned dict). -/
structure Metrics where
  sensitivity : ℝ
  spatial_resolution_fwhm : ℝ
  uniformity : ℝ
  contrast_to_noise : ℝ
  septal_penetration_fraction : Option ℝ
  geometric_efficiency : Option ℝ

/-- `calculate_metrics(simulation_results)` from the source: an early
return of four zero-valued keys when no photon was detected, else the six
metrics. -/
noncomputable def calculate_metrics (res : SimResult) : Metrics :=
  if res.detected_photons.length = 0 then
    { sensitivity := 0
      spatial_resolution_fwhm := 0
      uniformity := 0
      contrast_to_noise := 0
      septal_penetration_fraction := none
      geometric_efficiency := none }
  else
    { sensitivity := (res.detected_photons.length : ℝ) / (res.total_photons : ℝ) * 100
      spatial_resolution_fwhm := calculate_fwhm (res.detected_photons.map (fun ph => ph.1))
      uniformity := calculate_uniformity res.detected_photons
      contrast_to_noise :=
        if 0 < res.detected_photons.length then Real.sqrt (res.detected_photons.length : ℝ) else 0
      septal_penetration_fraction :=
        some ((res.septal_penetration : ℝ) / (res.total_photons : ℝ) * 100)
      geometric_efficiency :=
        some (((res.total_photons : ℝ) - (res.geometric_rejection : ℝ)) / (res.total_photons : ℝ) * 100) }

/-- Each trial ends in exactly one of the three outcomes, so the
detected-list length plus the two counters equals the number of trials. -/
theorem runTrials_conservation (p : CollimatorParams) (m : MaterialProperties) :
    ∀ rs : List PhotonRand,
      (runTrials p m rs).1.length + (runTrials p m rs).2.1 + (runTrials p m rs).2.2 = rs.length := by
  intro rs
  induction rs with
  | nil => rfl
  | cons r rs ih =>
    have hcons : runTrials p m (r :: rs) = trialFold p m r (runTrials p m rs) := rfl
    rw [hcons, trialFold_conservation, ih, List.length_cons]

/-- C1: for every run of `simulate_photon_transport` on a valid geometry,
`detected_count + septal_penetration + geometric_rejection = total_photons`
and `total_photons` equals the requested photon count: every trial ends in
exactly one of the three outcomes. -/
theorem C1_trial_conservation (p : CollimatorParams) (m : MaterialProperties)
    (N : ℕ) (sd : ℝ) (rand : ℕ → PhotonRand)
    (hd : 0 < p.hole_diameter) (hl : 0 < p.hole_length) :
    (simulate_photon_transport p m N sd rand).detected_count +
        (simulate_photon_transport p m N sd rand).septal_penetration +
        (simulate_photon_transport p m N sd rand).geometric_rejection =
      (simulate_photon_transport p m N sd rand).total_photons ∧
    (simulate_photon_transport p m N sd rand).total_photons = N := by
  constructor
  · show (runTrials p m ((List.range N).map rand)).1.length +
        (runTrials p m ((List.range N).map rand)).2.1 +
        (runTrials p m ((List.range N).map rand)).2.2 = N
    rw [runTrials_conservation p m ((List.range N).map rand), List.length_map,
      List.length_range]
  · rfl

/-- The lead entry of the material registry, used as a concrete material
in witnesses. -/
noncomputable def leadProps : MaterialProperties := ⟨11.34, 23.0, "Lead"⟩

/-- A concrete valid geometry used in witnesses. -/
noncomputable def pW : CollimatorParams := ⟨2, 4, 0.2, "lead", 100, 100⟩

/-- A concrete trial tuple: photon along the collimator axis. -/
noncomputable def rW : PhotonRand := ⟨0, 0, 0, 0, 0, 0⟩

/-- Witness for C1 at a concrete valid geometry and run. -/
theorem C1_trial_conservation_witness :
    (0 < pW.hole_diameter ∧ 0 < pW.hole_length) ∧
      ((simulate_photon_transport pW leadProps 5 100 (fun _ => rW)).detected_count +
          (simulate_photon_transport pW leadProps 5 100 (fun _ => rW)).septal_penetration +
          (simulate_photon_transport pW leadProps 5 100 (fun _ => rW)).geometric_rejection =
        (simulate_photon_transport pW leadProps 5 100 (fun _ => rW)).total_photons ∧
      (simulate_photon_transport pW leadProps 5 100 (fun _ => rW)).total_photons = 5) :=
  ⟨⟨by norm_num [pW], by norm_num [pW]⟩,
    C1_trial_conservation pW leadProps 5 100 (fun _ => rW)
      (by norm_num [pW]) (by norm_num [pW])⟩

/-- C8: `source_distance` is a dead parameter of
`simulate_photon_transport`: two runs on the same geometry, material,
photon count and random stream that differ only in their positive source
distances return identical results. -/
theorem C8_source_distance_dead (p : CollimatorParams) (m : MaterialProperties)
    (N : ℕ) (rand : ℕ → PhotonRand) (d1 d2 : ℝ) (h1 : 0 < d1) (h2 : 0 < d2) :
    simulate_photon_transport p m N d1 rand = simulate_photon_transport p m N d2 rand := rfl

/-- Witness for C8 at two concrete distances. -/
theorem C8_source_distance_dead_witness :
    ((0:ℝ) < 1 ∧ (0:ℝ) < 250) ∧
      simulate_photon_transport pW leadProps 3 1 (fun _ => rW) =
        simulate_photon_transport pW leadProps 3 250 (fun _ => rW) :=
  ⟨⟨by norm_num, by norm_num⟩,
    C8_source_distance_dead pW leadProps 3 (fun _ => rW) 1 250 (by norm_num) (by norm_num)⟩

/-- C9: a trial whose axial direction cosine `dz = cos theta` is not
positive is geometrically rejected (the acceptance test already excludes
it, since the acceptance angle is below `pi/2`), and conversely a detected
outcome can only arise with `dz > 0`, so the division by `dz` in the final
position is always by a positive number. -/
theorem C9_dz_positive (p : CollimatorParams) (m : MaterialProperties) (r : PhotonRand) :
    (Real.cos r.theta ≤ 0 → step p m r = Outcome.rejected) ∧
    (∀ x y e, step p m r = Outcome.detected x y e → 0 < Real.cos r.theta) := by
  have key : Real.cos r.theta ≤ 0 → step p m r = Outcome.rejected := by
    intro hcos
    have habs : Real.pi / 2 ≤ |r.theta| := by
      by_contra h
      push_neg at h
      have hpos : 0 < Real.cos r.theta :=
        Real.cos_pos_of_mem_Ioo ⟨neg_lt_of_abs_lt h, lt_of_abs_lt h⟩
      linarith
    have hlt : acceptance_angle p < |r.theta| :=
      lt_of_lt_of_le (Real.arctan_lt_pi_div_two _) habs
    unfold step
    rw [if_pos hlt]
  refine ⟨key, ?_⟩
  intro x y e hdet
  by_contra h
  push_neg at h
  rw [key h] at hdet
  exact Outcome.noConfusion hdet

/-- Witness for C9: a backward photon (`theta = pi`, `dz = -1`) is
geometrically rejected. -/
theorem C9_dz_positive_witness :
    Real.cos Real.pi ≤ 0 ∧
      step pW leadProps ⟨Real.pi, 0, 0, 0, 0, 0⟩ = Outcome.rejected :=
  ⟨by rw [Real.cos_pi]; norm_num,
    (C9_dz_positive pW leadProps ⟨Real.pi, 0, 0, 0, 0, 0⟩).1 (by rw [Real.cos_pi]; norm_num)⟩

/-- `arctan` of a nonnegative argument is nonnegative. -/
theorem arctan_nonneg {x : ℝ} (hx : 0 ≤ x) : 0 ≤ Real.arctan x := by
  have h := Real.arctan_strictMono.monotone hx
  rwa [Real.arctan_zero] at h

/-- An axial photon (`theta = 0`) on the witness geometry survives every
test and is detected at its entry position with the central energy. -/
theorem step_pW_axial : step pW leadProps rW = Outcome.detected 0 0 140 := by
  have htheta : rW.theta = 0 := rfl
  have h1 : ¬ acceptance_angle pW < |rW.theta| := by
    rw [htheta, abs_zero]
    exact not_lt.mpr (arctan_nonneg (by norm_num [pW]))
  have hsmall : |rW.theta| < 1e-6 := by
    rw [htheta, abs_zero]; norm_num
  have hsep : calculate_septal_path pW rW.theta rW.phi = 0 := by
    unfold calculate_septal_path
    rw [if_pos hsmall]
  have h2 : ¬ Real.exp (-(leadProps.attenuation_coefficient *
      calculate_septal_path pW rW.theta rW.phi) / 10) < rW.u :=
    not_lt.mpr (le_of_lt (Real.exp_pos _))
  unfold step
  rw [if_neg h1, if_neg h2]
  rw [htheta]
  norm_num
  exact ⟨rfl, rfl, rfl⟩

/-- Running any number of axial trials on the witness geometry detects
every photon at the origin. -/
theorem runTrials_pW_const (N : ℕ) :
    runTrials pW leadProps (List.replicate N rW) =
      (List.replicate N ((0:ℝ), (0:ℝ), (140:ℝ)), 0, 0) := by
  induction N with
  | zero => rfl
  | succ n ih =>
    have hcons : runTrials pW leadProps (List.replicate (n + 1) rW) =
        trialFold pW leadProps rW (runTrials pW leadProps (List.replicate n rW)) := by
      rw [List.replicate_succ]; rfl
    rw [hcons, ih]
    simp only [trialFold, step_pW_axial, List.replicate_succ]

/-- A full simulation of `N` axial photons on the witness geometry:
everything is detected, nothing rejected or absorbed. -/
theorem simulate_pW_const (N : ℕ) (sd : ℝ) :
    simulate_photon_transport pW leadProps N sd (fun _ => rW) =
      { detected_photons := List.replicate N ((0:ℝ), (0:ℝ), (140:ℝ))
        total_photons := N
        detected_count := N
        septal_penetration := 0
        geometric_rejection := 0 } := by
  unfold simulate_photon_transport
  have hmap : (List.range N).map (fun _ => rW) = List.replicate N rW := by
    rw [List.map_const', List.length_range]
  rw [hmap, runTrials_pW_const]
  simp

/-- The simulate result used by several witnesses: 10 axial photons, all
detected at the origin. -/
noncomputable def resW10 : SimResult :=
  simulate_photon_transport pW leadProps 10 100 (fun _ => rW)

/-- C4 counterexample: constructing a simulator from a geometry with a
negative hole diameter and a zero hole length succeeds (no dimension
validation happens at construction time), contradicting the claim that
such a construction fails with a `ConfigurationError`. -/
theorem C4_counterexample :
    mkSPECTSimulator ⟨-1, 0, 0.2, "lead", 100, 100⟩ =
      some ⟨⟨-1, 0, 0.2, "lead", 100, 100⟩, ⟨11.34, 23.0, "Lead"⟩⟩ := by
  simp [mkSPECTSimulator, MATERIALS]

/-- C4 amended: construction never validates the dimensions — it succeeds
for any hole diameter and length; the only construction-time failure is
the material lookup, which fails (a `KeyError`, modelled as `none`)
exactly when the name is outside {lead, tungsten, brass}. -/
theorem C4_construction_behavior (p : CollimatorParams) :
    (mkSPECTSimulator p).isSome = true ↔
      (p.material = "lead" ∨ p.material = "tungsten" ∨ p.material = "brass") := by
  unfold mkSPECTSimulator MATERIALS
  by_cases h1 : p.material = "lead" <;> by_cases h2 : p.material = "tungsten" <;>
    by_cases h3 : p.material = "brass" <;> simp [h1, h2, h3]

/-- C3 counterexample: on the empty run (`photonCount = 0`,
`detectedCount = 0`) the metrics dict omits the geometric-efficiency key
(modelled as `none`) instead of containing it with value zero, so not all
six fields are present and zero. -/
theorem C3_counterexample :
    (simulate_photon_transport pW leadProps 0 100 (fun _ => rW)).detected_count = 0 ∧
    (calculate_metrics (simulate_photon_transport pW leadProps 0 100 (fun _ => rW))).geometric_efficiency
      = none :=
  ⟨rfl, rfl⟩

/-- C3 amended: `simulate_photon_transport` with `photonCount = 0` returns
the empty result with every counter zero, and `calculate_metrics` on any
result with no detected photons returns zero sensitivity, spatial
resolution, uniformity, and contrast-to-noise, while omitting the
septal-penetration-fraction and geometric-efficiency keys. -/
theorem C3_zero_photons (p : CollimatorParams) (m : MaterialProperties)
    (sd : ℝ) (rand : ℕ → PhotonRand) :
    simulate_photon_transport p m 0 sd rand =
      { detected_photons := [], total_photons := 0, detected_count := 0,
        septal_penetration := 0, geometric_rejection := 0 } ∧
    ∀ res : SimResult, res.detected_photons = [] →
      calculate_metrics res =
        { sensitivity := 0, spatial_resolution_fwhm := 0, uniformity := 0,
          contrast_to_noise := 0, septal_penetration_fraction := none,
          geometric_efficiency := none } := by
  constructor
  · rfl
  · intro res h
    unfold calculate_metrics
    rw [h]
    simp

/-- Witness for C3 on a concrete run and a concrete zero-detection result. -/
theorem C3_zero_photons_witness :
    simulate_photon_transport pW leadProps 0 100 (fun _ => rW) =
      { detected_photons := [], total_photons := 0, detected_count := 0,
        septal_penetration := 0, geometric_rejection := 0 } ∧
    ((⟨[], 7, 0, 4, 3⟩ : SimResult).detected_photons = [] ∧
      calculate_metrics ⟨[], 7, 0, 4, 3⟩ =
        { sensitivity := 0, spatial_resolution_fwhm := 0, uniformity := 0,
          contrast_to_noise := 0, septal_penetration_fraction := none,
          geometric_efficiency := none }) :=
  ⟨(C3_zero_photons pW leadProps 100 (fun _ => rW)).1,
    rfl, (C3_zero_photons pW leadProps 100 (fun _ => rW)).2 ⟨[], 7, 0, 4, 3⟩ rfl⟩

/-- C5 counterexample: on a run with `totalPhotons = 0` the
septal-penetration-fraction key is absent from the metrics dict (modelled
as `none`), not present with value zero, so not every percentage metric is
returned as 0. -/
theorem C5_counterexample :
    (simulate_photon_transport pW leadProps 0 50 (fun _ => rW)).total_photons = 0 ∧
    (calculate_metrics (simulate_photon_transport pW leadProps 0 50 (fun _ => rW))).septal_penetration_fraction
      = none :=
  ⟨rfl, rfl⟩

/-- C5 amended: on any simulate result with at least one detection, the
metrics are `sensitivity = detected/total*100`,
`septal_penetration_fraction = septal/total*100` and
`geometric_efficiency = (total - rejected)/total*100`; when
`totalPhotons = 0` the four returned metrics are zero and the two
fraction/efficiency keys are absent rather than a division by zero being
attempted. -/
theorem C5_metrics_formulas (p : CollimatorParams) (m : MaterialProperties)
    (N : ℕ) (sd : ℝ) (rand : ℕ → PhotonRand) (r : SimResult)
    (hr : r = simulate_photon_transport p m N sd rand) :
    (0 < r.detected_count →
      ((calculate_metrics r).sensitivity =
          (r.detected_count : ℝ) / (r.total_photons : ℝ) * 100 ∧
        (calculate_metrics r).septal_penetration_fraction =
          some ((r.septal_penetration : ℝ) / (r.total_photons : ℝ) * 100) ∧
        (calculate_metrics r).geometric_efficiency =
          some (((r.total_photons : ℝ) - (r.geometric_rejection : ℝ)) / (r.total_photons : ℝ) * 100))) ∧
    (r.total_photons = 0 →
      calculate_metrics r =
        { sensitivity := 0, spatial_resolution_fwhm := 0, uniformity := 0,
          contrast_to_noise := 0, septal_penetration_fraction := none,
          geometric_efficiency := none }) := by
  subst hr
  constructor
  · intro hpos
    have hlen : 0 < (simulate_photon_transport p m N sd rand).detected_photons.length := hpos
    have hne : ¬ (simulate_photon_transport p m N sd rand).detected_photons.length = 0 :=
      Nat.pos_iff_ne_zero.mp hlen
    unfold calculate_metrics
    rw [if_neg hne]
    exact ⟨rfl, rfl, rfl⟩
  · intro h0
    have hN : N = 0 := h0
    subst hN
    rfl

/-- Witness for C5 on a concrete run with ten detections. -/
theorem C5_metrics_formulas_witness :
    0 < resW10.detected_count ∧
      ((calculate_metrics resW10).sensitivity =
          (resW10.detected_count : ℝ) / (resW10.total_photons : ℝ) * 100 ∧
        (calculate_metrics resW10).septal_penetration_fraction =
          some ((resW10.septal_penetration : ℝ) / (resW10.total_photons : ℝ) * 100) ∧
        (calculate_metrics resW10).geometric_efficiency =
          some (((resW10.total_photons : ℝ) - (resW10.geometric_rejection : ℝ)) / (resW10.total_photons : ℝ) * 100)) := by
  have hres : resW10 =
      { detected_photons := List.replicate 10 ((0:ℝ), (0:ℝ), (140:ℝ))
        total_photons := 10, detected_count := 10, septal_penetration := 0,
        geometric_rejection := 0 } := simulate_pW_const 10 100
  have hpos : 0 < resW10.detected_count := by rw [hres]; decide
  exact ⟨hpos,
    (C5_metrics_formulas pW leadProps 10 100 (fun _ => rW) resW10 rfl).1 hpos⟩

/-- C6: on every simulate result the spatial-resolution metric equals
`2.355 * np.std` of the detected x positions when at least 10 photons were
detected, equals 0 below 10 detections (not an error), and is nonnegative
in all cases. -/
theorem C6_fwhm (p : CollimatorParams) (m : MaterialProperties)
    (N : ℕ) (sd : ℝ) (rand : ℕ → PhotonRand) (r : SimResult)
    (hr : r = simulate_photon_transport p m N sd rand) :
    (10 ≤ r.detected_count →
      (calculate_metrics r).spatial_resolution_fwhm =
        2.355 * npStd (r.detected_photons.map (fun ph => ph.1))) ∧
    (r.detected_count < 10 → (calculate_metrics r).spatial_resolution_fwhm = 0) ∧
    0 ≤ (calculate_metrics r).spatial_resolution_fwhm := by
  subst hr
  have hcnt : (simulate_photon_transport p m N sd rand).detected_count =
      (simulate_photon_transport p m N sd rand).detected_photons.length := rfl
  refine ⟨?_, ?_, ?_⟩
  · intro h10
    rw [hcnt] at h10
    have hne : ¬ (simulate_photon_transport p m N sd rand).detected_photons.length = 0 := by
      omega
    unfold calculate_metrics
    rw [if_neg hne]
    show calculate_fwhm
        ((simulate_photon_transport p m N sd rand).detected_photons.map (fun ph => ph.1)) = _
    unfold calculate_fwhm
    rw [if_neg (by rw [List.length_map]; omega)]
  · intro hlt
    rw [hcnt] at hlt
    by_cases hz : (simulate_photon_transport p m N sd rand).detected_photons.length = 0
    · unfold calculate_metrics
      rw [if_pos hz]
    · unfold calculate_metrics
      rw [if_neg hz]
      show calculate_fwhm
          ((simulate_photon_transport p m N sd rand).detected_photons.map (fun ph => ph.1)) = _
      unfold calculate_fwhm
      rw [if_pos (by rw [List.length_map]; omega)]
  · by_cases hz : (simulate_photon_transport p m N sd rand).detected_photons.length = 0
    · unfold calculate_metrics
      rw [if_pos hz]
    · unfold calculate_metrics
      rw [if_neg hz]
      show (0:ℝ) ≤ calculate_fwhm
          ((simulate_photon_transport p m N sd rand).detected_photons.map (fun ph => ph.1))
      unfold calculate_fwhm
      split
      · exact le_refl 0
      · exact mul_nonneg (by norm_num) (Real.sqrt_nonneg _)

/-- Witness for C6 on a concrete run with ten detections, and on a run
with none. -/
theorem C6_fwhm_witness :
    (10 ≤ resW10.detected_count ∧
      (calculate_metrics resW10).spatial_resolution_fwhm =
        2.355 * npStd (resW10.detected_photons.map (fun ph => ph.1))) ∧
    0 ≤ (calculate_metrics resW10).spatial_resolution_fwhm := by
  have hres : resW10 =
      { detected_photons := List.replicate 10 ((0:ℝ), (0:ℝ), (140:ℝ))
        total_photons := 10, detected_count := 10, septal_penetration := 0,
        geometric_rejection := 0 } := simulate_pW_const 10 100
  have h10 : 10 ≤ resW10.detected_count := by rw [hres]
  exact ⟨⟨h10, (C6_fwhm pW leadProps 10 100 (fun _ => rW) resW10 rfl).1 h10⟩,
    (C6_fwhm pW leadProps 10 100 (fun _ => rW) resW10 rfl).2.2⟩

/-- C7: on every simulate result with at least 10 detections the
uniformity metric is computed by binning the detected positions into a
10 by 10 grid of counts and returning `max 0 ((1 - std/mean) * 100)` of
those counts, which is 0 whenever the per-bin mean is not positive; below
10 detections it is 0. -/
theorem C7_uniformity (p : CollimatorParams) (m : MaterialProperties)
    (N : ℕ) (sd : ℝ) (rand : ℕ → PhotonRand) (r : SimResult)
    (hr : r = simulate_photon_transport p m N sd rand) :
    (r.detected_count < 10 → (calculate_metrics r).uniformity = 0) ∧
    (10 ≤ r.detected_count →
      (calculate_metrics r).uniformity =
        (if 0 < npMean (histogram2d (r.detected_photons.map (fun ph => ph.1))
              (r.detected_photons.map (fun ph => ph.2.1)) 10)
         then max 0 ((1 -
            npStd (histogram2d (r.detected_photons.map (fun ph => ph.1))
              (r.detected_photons.map (fun ph => ph.2.1)) 10) /
            npMean (histogram2d (r.detected_photons.map (fun ph => ph.1))
              (r.detected_photons.map (fun ph => ph.2.1)) 10)) * 100)
         else 0)) := by
  subst hr
  have hcnt : (simulate_photon_transport p m N sd rand).detected_count =
      (simulate_photon_transport p m N sd rand).detected_photons.length := rfl
  constructor
  · intro hlt
    rw [hcnt] at hlt
    by_cases hz : (simulate_photon_transport p m N sd rand).detected_photons.length = 0
    · unfold calculate_metrics
      rw [if_pos hz]
    · unfold calculate_metrics
      rw [if_neg hz]
      show calculate_uniformity (simulate_photon_transport p m N sd rand).detected_photons = _
      unfold calculate_uniformity
      rw [if_pos hlt]
  · intro h10
    rw [hcnt] at h10
    have hne : ¬ (simulate_photon_transport p m N sd rand).detected_photons.length = 0 := by
      omega
    unfold calculate_metrics
    rw [if_neg hne]
    show calculate_uniformity (simulate_photon_transport p m N sd rand).detected_photons = _
    unfold calculate_uniformity
    rw [if_neg (by omega)]

/-- Witness for C7 on a concrete run with ten detections. -/
theorem C7_uniformity_witness :
    10 ≤ resW10.detected_count ∧
      (calculate_metrics resW10).uniformity =
        (if 0 < npMean (histogram2d (resW10.detected_photons.map (fun ph => ph.1))
              (resW10.detected_photons.map (fun ph => ph.2.1)) 10)
         then max 0 ((1 -
            npStd (histogram2d (resW10.detected_photons.map (fun ph => ph.1))
              (resW10.detected_photons.map (fun ph => ph.2.1)) 10) /
            npMean (histogram2d (resW10.detected_photons.map (fun ph => ph.1))
              (resW10.detected_photons.map (fun ph => ph.2.1)) 10)) * 100)
         else 0) := by
  have hres : resW10 =
      { detected_photons := List.replicate 10 ((0:ℝ), (0:ℝ), (140:ℝ))
        total_photons := 10, detected_count := 10, septal_penetration := 0,
        geometric_rejection := 0 } := simulate_pW_const 10 100
  have h10 : 10 ≤ resW10.detected_count := by rw [hres]
  exact ⟨h10, (C7_uniformity pW leadProps 10 100 (fun _ => rW) resW10 rfl).2 h10⟩

/-- Geometry for the C2 counterexample: wide, short holes, so the
acceptance angle is large and a tiny polar angle passes the geometric
test. -/
noncomputable def pC2 : CollimatorParams := ⟨100, 1, 0.2, "lead", 100, 100⟩

/-- A tiny positive polar angle below the `1e-6` cutoff of
`_calculate_septal_path`. -/
noncomputable def thetaC2 : ℝ := 1 / 10000000

/-- The survival probability the claim prescribes at `thetaC2`, computed
from `septalThickness * |tan theta|` with no small-angle cutoff. -/
noncomputable def claimSurvivalC2 : ℝ :=
  Real.exp (-(leadProps.attenuation_coefficient *
    (pC2.septal_thickness * |Real.tan thetaC2|)) / 10)

/-- A uniform draw lying strictly between the claim's survival probability
and 1. -/
noncomputable def uC2 : ℝ := (claimSurvivalC2 + 1) / 2

/-- The trial tuple of the C2 counterexample. -/
noncomputable def rC2 : PhotonRand := ⟨thetaC2, 0, 0, 0, uC2, 0⟩

/-- The claim's survival probability at `thetaC2` is strictly below 1,
because the claimed septal path `septalThickness * |tan thetaC2|` is
strictly positive. -/
theorem claimSurvivalC2_lt_one : claimSurvivalC2 < 1 := by
  have h3 := Real.pi_gt_three
  have hpos : 0 < thetaC2 := by unfold thetaC2; norm_num
  have hlt : thetaC2 < Real.pi / 2 := by unfold thetaC2; linarith
  have htan : 0 < Real.tan thetaC2 :=
    Real.tan_pos_of_pos_of_lt_pi_div_two hpos hlt
  have habs : 0 < |Real.tan thetaC2| := abs_pos.mpr (ne_of_gt htan)
  unfold claimSurvivalC2
  rw [Real.exp_lt_one_iff]
  have ha : leadProps.attenuation_coefficient = 23.0 := rfl
  have hb : pC2.septal_thickness = 0.2 := rfl
  rw [ha, hb]
  nlinarith

/-- C2 counterexample: on the valid geometry `pC2` the trial `rC2` passes
the acceptance test, its uniform draw lies in `[0, 1)` and exceeds the
survival probability the claim prescribes (so the claim says the photon is
septally absorbed), yet the code detects the photon, because the code's
septal path is 0 below the `1e-6` angle cutoff. -/
theorem C2_counterexample :
    (|rC2.theta| ≤ acceptance_angle pC2 ∧ 0 ≤ rC2.u ∧ rC2.u < 1) ∧
    Real.exp (-(leadProps.attenuation_coefficient *
        (pC2.septal_thickness * |Real.tan rC2.theta|)) / 10) < rC2.u ∧
    (∃ x y e, step pC2 leadProps rC2 = Outcome.detected x y e) := by
  have hθ : rC2.theta = thetaC2 := rfl
  have hu : rC2.u = uC2 := rfl
  have h3 := Real.pi_gt_three
  have hθpos : 0 < thetaC2 := by unfold thetaC2; norm_num
  have habs_eq : |thetaC2| = thetaC2 := abs_of_pos hθpos
  have hsurv1 : claimSurvivalC2 < 1 := claimSurvivalC2_lt_one
  have hsurv0 : 0 < claimSurvivalC2 := Real.exp_pos _
  have hu1 : uC2 < 1 := by unfold uC2; linarith
  have hu0 : 0 ≤ uC2 := by unfold uC2; linarith
  have huS : claimSurvivalC2 < uC2 := by unfold uC2; linarith
  have hacc : thetaC2 ≤ acceptance_angle pC2 := by
    have h4 : acceptance_angle pC2 = Real.arctan 50 := by
      unfold acceptance_angle pC2
      norm_num
    have h1 : Real.pi / 4 ≤ Real.arctan 50 := by
      rw [← Real.arctan_one]
      exact Real.arctan_strictMono.monotone (by norm_num)
    have h2 : thetaC2 ≤ Real.pi / 4 := by unfold thetaC2; linarith
    rw [h4]; linarith
  have hcond1 : ¬ acceptance_angle pC2 < |rC2.theta| := by
    rw [hθ, habs_eq]
    exact not_lt.mpr hacc
  have hsmall : |rC2.theta| < 1e-6 := by
    rw [hθ, habs_eq]; unfold thetaC2; norm_num
  have hsep : calculate_septal_path pC2 rC2.theta rC2.phi = 0 := by
    unfold calculate_septal_path; rw [if_pos hsmall]
  have hcond2 : ¬ Real.exp (-(leadProps.attenuation_coefficient *
      calculate_septal_path pC2 rC2.theta rC2.phi) / 10) < rC2.u := by
    rw [hsep, hu]
    simp only [mul_zero, neg_zero, zero_div, Real.exp_zero]
    exact not_lt.mpr (le_of_lt hu1)
  refine ⟨⟨?_, ?_, ?_⟩, ?_, ?_⟩
  · rw [hθ, habs_eq]; exact hacc
  · rw [hu]; exact hu0
  · rw [hu]; exact hu1
  · rw [hθ, hu]; exact huS
  · refine ⟨rC2.x0 + Real.sin rC2.theta * Real.cos rC2.phi * pC2.hole_length / Real.cos rC2.theta,
      rC2.y0 + Real.sin rC2.theta * Real.sin rC2.phi * pC2.hole_length / Real.cos rC2.theta,
      140 + 140 * 0.1 / 2.355 * rC2.eps, ?_⟩
    unfold step
    rw [if_neg hcond1, if_neg hcond2]

/-- C2 amended: a trial is geometrically rejected iff
`|theta| > arctan(holeDiameter / (2 * holeLength))`; an accepted trial is
septally absorbed iff the uniform draw exceeds
`exp(-attenuationCoefficient * septalPath / 10)` where the septal path is
0 for `|theta| < 1e-6` and `septalThickness * |tan theta|` otherwise; an
accepted, surviving trial is detected at
`(x0 + dx*L/dz, y0 + dy*L/dz)` with the direction cosines of
`(theta, phi)`. -/
theorem C2_step_characterization (p : CollimatorParams) (m : MaterialProperties)
    (r : PhotonRand) :
    (calculate_septal_path p r.theta r.phi =
      if |r.theta| < 1e-6 then 0 else p.septal_thickness * |Real.tan r.theta|) ∧
    (step p m r = Outcome.rejected ↔ acceptance_angle p < |r.theta|) ∧
    (step p m r = Outcome.absorbed ↔
      (|r.theta| ≤ acceptance_angle p ∧
        Real.exp (-(m.attenuation_coefficient *
          calculate_septal_path p r.theta r.phi) / 10) < r.u)) ∧
    (|r.theta| ≤ acceptance_angle p →
      r.u ≤ Real.exp (-(m.attenuation_coefficient *
        calculate_septal_path p r.theta r.phi) / 10) →
      step p m r =
        Outcome.detected
          (r.x0 + Real.sin r.theta * Real.cos r.phi * p.hole_length / Real.cos r.theta)
          (r.y0 + Real.sin r.theta * Real.sin r.phi * p.hole_length / Real.cos r.theta)
          (140 + 140 * 0.1 / 2.355 * r.eps)) := by
  refine ⟨rfl, ?_, ?_, ?_⟩
  · unfold step
    by_cases h1 : acceptance_angle p < |r.theta|
    · rw [if_pos h1]; simp [h1]
    · rw [if_neg h1]
      by_cases h2 : Real.exp (-(m.attenuation_coefficient *
          calculate_septal_path p r.theta r.phi) / 10) < r.u
      · rw [if_pos h2]; simp [h1]
      · rw [if_neg h2]; simp [h1]
  · unfold step
    by_cases h1 : acceptance_angle p < |r.theta|
    · rw [if_pos h1]
      constructor
      · intro hcon; exact Outcome.noConfusion hcon
      · intro hcon; exact absurd h1 (not_lt.mpr hcon.1)
    · rw [if_neg h1]
      by_cases h2 : Real.exp (-(m.attenuation_coefficient *
          calculate_septal_path p r.theta r.phi) / 10) < r.u
      · rw [if_pos h2]
        simp [not_lt.mp h1, h2]
      · rw [if_neg h2]
        simp [h2]
  · intro ha hb
    unfold step
    rw [if_neg (not_lt.mpr ha), if_neg (not_lt.mpr hb)]

/-- Witness for C2 at an axial trial on the witness geometry, exercising
the accepted-and-surviving branch of the characterization. -/
theorem C2_step_characterization_witness :
    (|rW.theta| ≤ acceptance_angle pW ∧
      rW.u ≤ Real.exp (-(leadProps.attenuation_coefficient *
        calculate_septal_path pW rW.theta rW.phi) / 10)) ∧
    step pW leadProps rW =
      Outcome.detected
        (rW.x0 + Real.sin rW.theta * Real.cos rW.phi * pW.hole_length / Real.cos rW.theta)
        (rW.y0 + Real.sin rW.theta * Real.sin rW.phi * pW.hole_length / Real.cos rW.theta)
        (140 + 140 * 0.1 / 2.355 * rW.eps) := by
  have ha : |rW.theta| ≤ acceptance_angle pW := by
    rw [show rW.theta = 0 from rfl, abs_zero]
    exact arctan_nonneg (by norm_num [pW])
  have hb : rW.u ≤ Real.exp (-(leadProps.attenuation_coefficient *
      calculate_septal_path pW rW.theta rW.phi) / 10) :=
    le_of_lt (Real.exp_pos _)
  exact ⟨⟨ha, hb⟩, (C2_step_characterization pW leadProps rW).2.2.2 ha hb⟩

/-- `sin |x| = |sin x|` on the interval where `|x| ≤ pi`. -/
theorem sin_abs_eq (x : ℝ) (hx : |x| ≤ Real.pi) : Real.sin |x| = |Real.sin x| := by
  rcases abs_cases x with ⟨h, hpos⟩ | ⟨h, hneg⟩
  · rw [h, abs_of_nonneg (Real.sin_nonneg_of_nonneg_of_le_pi hpos (by rw [← h]; exact hx))]
  · rw [h, Real.sin_neg,
      abs_of_nonpos (by
        have hs : 0 ≤ Real.sin (-x) :=
          Real.sin_nonneg_of_nonneg_of_le_pi (by linarith) (by rw [← h]; exact hx)
        rw [Real.sin_neg] at hs
        linarith)]

/-- Arithmetic core of the detected-position bound: if `|s| / c ≤ q` with
`c, L > 0` and `|k| ≤ 1`, then `|s * k * L / c| ≤ q * L`. -/
theorem transverse_bound {s k L c q : ℝ} (hc : 0 < c) (hL : 0 < L)
    (hs : |s| / c ≤ q) (hk : |k| ≤ 1) : |s * k * L / c| ≤ q * L := by
  rw [abs_div, abs_of_pos hc, abs_mul, abs_mul, abs_of_pos hL]
  rw [div_le_iff hc]
  rw [div_le_iff hc] at hs
  have h0s : 0 ≤ |s| := abs_nonneg s
  have h0k : 0 ≤ |k| := abs_nonneg k
  nlinarith [mul_le_mul_of_nonneg_right (mul_le_of_le_one_right h0s hk) (le_of_lt hL),
    mul_le_mul_of_nonneg_right hs (le_of_lt hL)]

/-- C10: a detected photon's final position differs from its entry
position by at most half a hole diameter in each transverse axis: passing
the acceptance test bounds `|tan theta|` by `holeDiameter/(2*holeLength)`,
and the transverse offsets are `tan(theta) * cos(phi) * holeLength` and
`tan(theta) * sin(phi) * holeLength`. -/
theorem C10_detected_position_bound (p : CollimatorParams) (m : MaterialProperties)
    (r : PhotonRand) (x y e : ℝ)
    (hd : 0 < p.hole_diameter) (hl : 0 < p.hole_length)
    (hdet : step p m r = Outcome.detected x y e) :
    |x - r.x0| ≤ p.hole_diameter / 2 ∧ |y - r.y0| ≤ p.hole_diameter / 2 := by
  unfold step at hdet
  by_cases h1 : acceptance_angle p < |r.theta|
  · rw [if_pos h1] at hdet
    exact Outcome.noConfusion hdet
  rw [if_neg h1] at hdet
  by_cases h2 : Real.exp (-(m.attenuation_coefficient *
      calculate_septal_path p r.theta r.phi) / 10) < r.u
  · rw [if_pos h2] at hdet
    exact Outcome.noConfusion hdet
  rw [if_neg h2] at hdet
  injection hdet with hx hy he
  have hq : 0 < p.hole_diameter / (2 * p.hole_length) := by positivity
  have hθle : |r.theta| ≤ Real.arctan (p.hole_diameter / (2 * p.hole_length)) :=
    not_lt.mp h1
  have hθhalf : |r.theta| < Real.pi / 2 :=
    lt_of_le_of_lt hθle (Real.arctan_lt_pi_div_two _)
  have hcos : 0 < Real.cos r.theta :=
    Real.cos_pos_of_mem_Ioo ⟨neg_lt_of_abs_lt hθhalf, lt_of_abs_lt hθhalf⟩
  have hmem1 : |r.theta| ∈ Set.Ioo (-(Real.pi / 2)) (Real.pi / 2) := by
    constructor
    · have hpi := Real.pi_pos
      have : -(Real.pi / 2) < 0 := by linarith
      exact lt_of_lt_of_le this (abs_nonneg _)
    · exact hθhalf
  have htan_le : Real.tan |r.theta| ≤ p.hole_diameter / (2 * p.hole_length) := by
    have hmono := Real.strictMonoOn_tan.monotoneOn hmem1
      (Real.arctan_mem_Ioo (p.hole_diameter / (2 * p.hole_length))) hθle
    rwa [Real.tan_arctan] at hmono
  have habs_pi : |r.theta| ≤ Real.pi := by
    have hpi := Real.pi_pos
    linarith [hθhalf]
  have htan_eq : Real.tan |r.theta| = |Real.sin r.theta| / Real.cos r.theta := by
    rw [Real.tan_eq_sin_div_cos, Real.cos_abs, sin_abs_eq r.theta habs_pi]
  have hkey : |Real.sin r.theta| / Real.cos r.theta ≤ p.hole_diameter / (2 * p.hole_length) := by
    rw [← htan_eq]; exact htan_le
  have hqL : p.hole_diameter / (2 * p.hole_length) * p.hole_length = p.hole_diameter / 2 := by
    field_simp
    ring
  constructor
  · have hx' : x - r.x0 =
        Real.sin r.theta * Real.cos r.phi * p.hole_length / Real.cos r.theta := by
      rw [← hx]; ring
    rw [hx']
    have := transverse_bound hcos hl hkey (Real.abs_cos_le_one r.phi)
    rwa [hqL] at this
  · have hy' : y - r.y0 =
        Real.sin r.theta * Real.sin r.phi * p.hole_length / Real.cos r.theta := by
      rw [← hy]; ring
    rw [hy']
    have := transverse_bound hcos hl hkey (Real.abs_sin_le_one r.phi)
    rwa [hqL] at this

/-- Witness for C10 at an axial detected photon on the witness geometry. -/
theorem C10_detected_position_bound_witness :
    (0 < pW.hole_diameter ∧ 0 < pW.hole_length ∧
      step pW leadProps rW = Outcome.detected 0 0 140) ∧
    (|(0:ℝ) - rW.x0| ≤ pW.hole_diameter / 2 ∧ |(0:ℝ) - rW.y0| ≤ pW.hole_diameter / 2) :=
  ⟨⟨by norm_num [pW], by norm_num [pW], step_pW_axial⟩,
    C10_detected_position_bound pW leadProps rW 0 0 140
      (by norm_num [pW]) (by norm_num [pW]) step_pW_axial⟩

end Spect
